import Mathlib

/-!
Shallow embedding of the CSsaan/OpenGL_GLSL utility headers.

Sources modelled:
- `src/csmatrix_utils.hpp` (namespace `glmCS`): 4x4 matrix utilities
  over `float`, idealized here over `ℝ`.
- `src/unnamed/part_001` (`matrix_utils.h`, here namespace `glmCSplain`):
  the plain non-`extern "C"` variant of the same library; it declares an
  identical `Matrix` struct, so the struct is shared, and only the
  operations whose behavior differs from `csmatrix_utils.hpp` are
  embedded a second time.
- `src/truetype.hpp` (class `TrueType`): text rasterizer wrapping
  stb_truetype; the stb_truetype calls are third-party code outside this
  repository and are modelled as an abstract interface of pure functions.

C `float` arithmetic is idealized as exact real arithmetic; machine
integer arithmetic in the rasterizer fits well inside `int` range and is
modelled with `ℤ`/`ℕ`.
-/

noncomputable section

namespace glmCS

/-- Status codes from the anonymous enum in `csmatrix_utils.hpp`:
`GLMCS_false = -1`, `GLMCS_not_rotate = 0`, `GLMCS_ok = 1`. -/
def GLMCS_false : Int := -1

/-- `GLMCS_not_rotate = 0`. -/
def GLMCS_not_rotate : Int := 0

/-- `GLMCS_ok = 1`. -/
def GLMCS_ok : Int := 1

/-- The `Matrix` struct: `float mat3[3][3]; float mat4[4][4];`.
Row-major: `mat4 i j` is `mat4[i][j]`. -/
structure Matrix where
  mat3 : Fin 3 → Fin 3 → ℝ
  mat4 : Fin 4 → Fin 4 → ℝ

/-- The `Vector3` struct: `float x, y, z;`. -/
structure Vector3 where
  x : ℝ
  y : ℝ
  z : ℝ

/-- `initIdentityMatrix4x4`: sets `mat4[i][j] = (i == j) ? 1.0f : 0.0f`;
`mat3` is not touched. The C function mutates through a pointer; the
updated struct is returned. -/
def initIdentityMatrix4x4 (matrix : Matrix) : Matrix :=
  { matrix with mat4 := fun i j => if i = j then 1 else 0 }

/-- `vec3`: builds a `Vector3` from components. -/
def vec3 (x y z : ℝ) : Vector3 :=
  ⟨x, y, z⟩

/-- `normalize`: returns `GLMCS_false` and leaves `v` unchanged when the
euclidean length is zero (after printing a zero-division diagnostic),
otherwise divides each component by the length and returns `GLMCS_ok`.
The C function mutates `v` in place and returns only the status; the
pair (status, updated vector) is returned here. -/
def normalize (v : Vector3) : Int × Vector3 :=
  let length := Real.sqrt (v.x * v.x + v.y * v.y + v.z * v.z)
  if length = 0 then (GLMCS_false, v)
  else (GLMCS_ok, ⟨v.x / length, v.y / length, v.z / length⟩)

/-- `cross`: cross product, written exactly as in the source. -/
def cross (v1 v2 : Vector3) : Vector3 :=
  ⟨v1.y * v2.z - v1.z * v2.y,
   v1.z * v2.x - v1.x * v2.z,
   v1.x * v2.y - v1.y * v2.x⟩

/-- `dot`: inner product. -/
def dot (v1 v2 : Vector3) : ℝ :=
  v1.x * v2.x + v1.y * v2.y + v1.z * v2.z

/-- `subtract`: componentwise difference `v1 - v2`. -/
def subtract (v1 v2 : Vector3) : Vector3 :=
  ⟨v1.x - v2.x, v1.y - v2.y, v1.z - v2.z⟩

/-- `lookAt(eye, target, up)`. The source calls `normalize` on each of
`forward`, `right`, `upVec` and DISCARDS the returned status; on a
zero-length input `normalize` leaves the vector unchanged, and `lookAt`
keeps going with the unnormalized vector. The local `Matrix4.mat3` is
never written in the source (uninitialized memory); it is fixed to 0
here. The return type is `Matrix` alone: no status is returned. -/
def lookAt (eye target up : Vector3) : Matrix :=
  let forward := (normalize (subtract target eye)).2
  let right := (normalize (cross forward up)).2
  let upVec := (normalize (cross right forward)).2
  { mat3 := fun _ _ => 0,
    mat4 := ![![right.x, upVec.x, -forward.x, 0],
              ![right.y, upVec.y, -forward.y, 0],
              ![right.z, upVec.z, -forward.z, 0],
              ![-(dot right eye), -(dot upVec eye), dot forward eye, 1]] }

/-- `perspective(fov, aspectRatio, nearPlane, farPlane)` with
`f = 1.0f / tanf(fov * 0.5f)`. `mat3` of the local struct is
uninitialized in the source and fixed to 0 here. -/
def perspective (fov aspectRatio nearPlane farPlane : ℝ) : Matrix :=
  let f := 1 / Real.tan (fov * 0.5)
  { mat3 := fun _ _ => 0,
    mat4 := ![![f / aspectRatio, 0, 0, 0],
              ![0, f, 0, 0],
              ![0, 0, (farPlane + nearPlane) / (nearPlane - farPlane), -1],
              ![0, 0, (2 * farPlane * nearPlane) / (nearPlane - farPlane), 0]] }

/-- Single-cell store `M[i][j] = v` on a 4x4 row-major array. -/
def set2 (M : Fin 4 → Fin 4 → ℝ) (i j : Fin 4) (v : ℝ) : Fin 4 → Fin 4 → ℝ :=
  fun a b => if a = i ∧ b = j then v else M a b

/-- `translateMatrix` of `csmatrix_utils.hpp`: three sequential stores
`mat4[3][0] += x; mat4[3][1] += y; mat4[3][2] += z;` (row 3). The C
function returns `GLMCS_false` only when the pointer is null, which has
no counterpart here; the updated struct is returned. -/
def translateMatrix (matrix : Matrix) (x y z : ℝ) : Matrix :=
  let a1 := set2 matrix.mat4 3 0 (matrix.mat4 3 0 + x)
  let a2 := set2 a1 3 1 (a1 3 1 + y)
  let a3 := set2 a2 3 2 (a2 3 2 + z)
  { matrix with mat4 := a3 }

/-- `matrixMultiply(result, matrix, b)`: fills a local `temp[4][4]` with
`temp[i][j] = Σ_k matrix->mat4[i][k] * b[k][j]`, then copies `temp` into
`result->mat4`. The null-pointer branch has no counterpart here. Since
`temp` is computed in full before `result` is written, the embedding of
the copy is a plain functional update of `result`. -/
def matrixMultiply (result matrix : Matrix) (b : Fin 4 → Fin 4 → ℝ) : Matrix :=
  let temp : Fin 4 → Fin 4 → ℝ := fun i j =>
    (List.finRange 4).foldl (fun acc k => acc + matrix.mat4 i k * b k j) 0
  { result with mat4 := fun i j => temp i j }

/-- `(int)b` for a C `bool`. -/
def bool2int (b : Bool) : Int :=
  if b then 1 else 0

/-- The local `rotationMatrix` literal of the `x == 1` branch of
`rotate`. -/
def rotationMatrixX (radian : ℝ) : Fin 4 → Fin 4 → ℝ :=
  ![![1, 0, 0, 0],
    ![0, Real.cos radian, Real.sin radian, 0],
    ![0, -Real.sin radian, Real.cos radian, 0],
    ![0, 0, 0, 1]]

/-- The local `rotationMatrix` literal of the `y == 1` branch of
`rotate`. -/
def rotationMatrixY (radian : ℝ) : Fin 4 → Fin 4 → ℝ :=
  ![![Real.cos radian, 0, -Real.sin radian, 0],
    ![0, 1, 0, 0],
    ![Real.sin radian, 0, Real.cos radian, 0],
    ![0, 0, 0, 1]]

/-- The local `rotationMatrix` literal of the `z == 1` branch of
`rotate`. -/
def rotationMatrixZ (radian : ℝ) : Fin 4 → Fin 4 → ℝ :=
  ![![Real.cos radian, Real.sin radian, 0, 0],
    ![-Real.sin radian, Real.cos radian, 0, 0],
    ![0, 0, 1, 0],
    ![0, 0, 0, 1]]

/-- `rotate(angle, matrix, x, y, z)`: when `(int)x+(int)y+(int)z != 1`
returns `GLMCS_not_rotate` (sum 0) or `GLMCS_false` (sum 2 or 3) without
touching the matrix; otherwise converts `angle` to radians via
`angle * M_PI / 180.0f` and right-multiplies the matrix in place by the
single-axis rotation matrix, returning `GLMCS_ok`. The C function
mutates through the pointer and returns the status; the pair is
returned here. -/
def rotate (angle : ℝ) (matrix : Matrix) (x y z : Bool) : Int × Matrix :=
  if bool2int x + bool2int y + bool2int z ≠ 1 then
    if bool2int x + bool2int y + bool2int z = 0 then (GLMCS_not_rotate, matrix)
    else (GLMCS_false, matrix)
  else
    let radian := angle * Real.pi / 180
    if x then (GLMCS_ok, matrixMultiply matrix matrix (rotationMatrixX radian))
    else if y then (GLMCS_ok, matrixMultiply matrix matrix (rotationMatrixY radian))
    else if z then (GLMCS_ok, matrixMultiply matrix matrix (rotationMatrixZ radian))
    else (GLMCS_ok, matrix)

/-- The all-zero `Matrix` value, used as a concrete test input. -/
def mZero : Matrix :=
  ⟨fun _ _ => 0, fun _ _ => 0⟩

/-- Row-vector application `v * M` (the convention under which this
row-major library composes transforms by right-multiplication). -/
def vecMulMat (v : Fin 4 → ℝ) (M : Fin 4 → Fin 4 → ℝ) : Fin 4 → ℝ :=
  fun j => ∑ i : Fin 4, v i * M i j

end glmCS

namespace glmCSplain

/-- `translateMatrix` of `src/unnamed/part_001` (`matrix_utils.h`):
three sequential stores `mat4[0][3] += x; mat4[1][3] += y;
mat4[2][3] += z;` (column 3 of rows 0..2). -/
def translateMatrix (matrix : glmCS.Matrix) (x y z : ℝ) : glmCS.Matrix :=
  let a1 := glmCS.set2 matrix.mat4 0 3 (matrix.mat4 0 3 + x)
  let a2 := glmCS.set2 a1 1 3 (a1 1 3 + y)
  let a3 := glmCS.set2 a2 2 3 (a2 2 3 + z)
  { matrix with mat4 := a3 }

end glmCSplain

/-- The grayscale bitmap: one byte per pixel, row-major, as in
`unsigned char *bitmap`. -/
def Bitmap : Type :=
  List ℕ

/-- Abstract interface for the stb_truetype calls made by
`truetype.hpp`. stb_truetype is third-party code outside this
repository (declared out of scope by the project), so its functions are
parameters of the model: each field is one stb call, pure, with the
argument order of the call site. `makeCodepointBitmap` takes the whole
bitmap plus the `byteOffset` that the source computes into the pixel
pointer, the box width `c_x2 - c_x1`, the box height `c_y2 - c_y1`, the
stride `bitmap_w`, the two scales, and the character. -/
structure FontEngine where
  scaleForPixelHeight : ℝ → ℝ
  fontVMetrics : ℤ × ℤ × ℤ
  codepointHMetrics : Char → ℤ × ℤ
  codepointBitmapBox : Char → ℝ → ℝ → ℤ × ℤ × ℤ × ℤ
  codepointKernAdvance : Char → Char → ℤ
  makeCodepointBitmap : Bitmap → ℤ → ℤ → ℤ → ℕ → ℝ → ℝ → Char → Bitmap

/-- `TrueType::resetBitmap` on an allocated bitmap:
`std::fill_n(bitmap, bitmap_w * bitmap_h, 0)` writes `bitmap_w *
bitmap_h` zero bytes over the buffer, whose allocated size is exactly
`bitmap_w * bitmap_h`. -/
def resetBitmap (bitmap_w bitmap_h : ℕ) (_bitmap : Bitmap) : Bitmap :=
  List.replicate (bitmap_w * bitmap_h) 0

/-- The glyph loop of `TrueType::ttf2picture`, iterating `i` from 0 to
`word.size() - 1`. Processing `c :: rest` models iteration `i` with
`word[i] = c`; the kerning lookup reads `word[i + 1]`, which is
`rest.head?`. On the final iteration `rest` is empty: the index `i + 1`
equals `word.size()` and the total model has no value to read, so the
loop is cut there, after that iteration's bitmap write and advance
(first component `none`). Otherwise the result carries the final cursor
`x`. -/
def renderChars (E : FontEngine) (bitmap_w : ℕ) (ascent : ℤ) (scale : ℝ) :
    List Char → ℤ → Bitmap → Option ℤ × Bitmap
  | [], x, b => (some x, b)
  | c :: rest, x, b =>
    let hm := E.codepointHMetrics c
    let advanceWidth := hm.1
    let leftSideBearing := hm.2
    let box := E.codepointBitmapBox c scale scale
    let c_x1 := box.1
    let c_y1 := box.2.1
    let c_x2 := box.2.2.1
    let c_y2 := box.2.2.2
    let y := ascent + c_y1
    let byteOffset := x + round ((leftSideBearing : ℝ) * scale) + y * (bitmap_w : ℤ)
    let b2 := E.makeCodepointBitmap b byteOffset (c_x2 - c_x1) (c_y2 - c_y1) bitmap_w scale scale c
    let x2 := x + round ((advanceWidth : ℝ) * scale)
    match rest.head? with
    | none => (none, b2)
    | some c2 =>
      let x3 := x2 + round ((E.codepointKernAdvance c c2 : ℝ) * scale)
      renderChars E bitmap_w ascent scale rest x3 b2

/-- `TrueType::ttf2picture(word, pixels)` on an instance whose bitmap
is allocated: resets the bitmap, computes `scale`, the rounded
`ascent`, runs the glyph loop from cursor `x = 0`, and finally returns
0 when the cursor never advanced (`x == 0`) and 1 otherwise. The first
component is `none` when the loop hit the out-of-bounds kerning read
(every non-empty `word`). -/
def ttf2picture (E : FontEngine) (bitmap_w bitmap_h : ℕ) (word : List Char)
    (pixels : ℝ) (bitmap : Bitmap) : Option ℤ × Bitmap :=
  let b := resetBitmap bitmap_w bitmap_h bitmap
  let scale := E.scaleForPixelHeight pixels
  let ascent0 := E.fontVMetrics.1
  let ascent := round ((ascent0 : ℝ) * scale)
  match renderChars E bitmap_w ascent scale word 0 b with
  | (none, b2) => (none, b2)
  | (some x, b2) => if x = 0 then (some 0, b2) else (some 1, b2)

/-- `TrueType::stringToHex(input, word)`: pushes every character of the
input string into the vector in order. -/
def stringToHex (input : String) : List Char :=
  input.toList

/-- `TrueType::processInput(input, pixels)`: converts the string and
renders; the return value of `ttf2picture` is discarded, so only the
bitmap state remains. -/
def processInput (E : FontEngine) (bitmap_w bitmap_h : ℕ) (input : String)
    (pixels : ℝ) (bitmap : Bitmap) : Bitmap :=
  (ttf2picture E bitmap_w bitmap_h (stringToHex input) pixels bitmap).2

/-- The data members of class `TrueType`: the font path, the bitmap
width and height (defaults 512 and 128), and the bitmap pointer,
`none` standing for `NULL` (its in-class initializer). The
`stbtt_fontinfo info` member is owned by the out-of-scope stb library
and carries no modelled state. -/
structure TrueType where
  ttf_dir : String := "/system/bin/fonts/arial.ttf"
  bitmap_w : ℕ := 512
  bitmap_h : ℕ := 128
  bitmap : Option Bitmap := none

/-- `TrueType::init_truetype()`: when `fopen` fails (parameter
`fontFileOpens = false`) it prints and returns 0, leaving the bitmap
member untouched (still `NULL`); otherwise it reads the font file,
calls `stbtt_InitFont` (whose failure only prints), allocates the
bitmap with `calloc(bitmap_w * bitmap_h, 1)` (all zero), and
returns 1. -/
def TrueType.init_truetype (fontFileOpens : Bool) (t : TrueType) : Int × TrueType :=
  if fontFileOpens = false then (0, t)
  else (1, { t with bitmap := some (List.replicate (t.bitmap_w * t.bitmap_h) 0) })

/-- The two-argument constructor `TrueType(ttf_dir)`: keeps the default
width and height, stores the path, runs `init_truetype` (status
discarded). -/
def TrueType.construct (fontFileOpens : Bool) (ttf_dir : String) : TrueType :=
  (TrueType.init_truetype fontFileOpens { ttf_dir := ttf_dir }).2

/-- The constructor `TrueType(bitmap_w, bitmap_h, ttf_dir)`: stores the
dimensions and the path, runs `init_truetype` (status discarded). -/
def TrueType.constructWH (fontFileOpens : Bool) (bitmap_w bitmap_h : ℕ)
    (ttf_dir : String) : TrueType :=
  (TrueType.init_truetype fontFileOpens
    { ttf_dir := ttf_dir, bitmap_w := bitmap_w, bitmap_h := bitmap_h }).2

/-- `TrueType::getBitmapWH(w, h)`: writes `bitmap_w` and `bitmap_h`
through the output pointers, never reading the bitmap. -/
def TrueType.getBitmapWH (t : TrueType) : ℕ × ℕ :=
  (t.bitmap_w, t.bitmap_h)

/-- A trivial concrete font interface, serving as a test input. -/
def fontEngine0 : FontEngine :=
  ⟨fun _ => 0, (0, 0, 0), fun _ => (0, 0), fun _ _ _ => (0, 0, 0, 0), fun _ _ => 0,
    fun b _ _ _ _ _ _ _ => b⟩

/-- The inner accumulation loop of `matrixMultiply` computes the
standard inner product `Σ_k matrix.mat4[i][k] * b[k][j]`. -/
theorem glmCS.matrixMultiply_entry (result a : glmCS.Matrix) (b : Fin 4 → Fin 4 → ℝ)
    (i j : Fin 4) :
    (glmCS.matrixMultiply result a b).mat4 i j = ∑ k : Fin 4, a.mat4 i k * b k j := by
  have hfr : List.finRange 4 = [0, 1, 2, 3] := rfl
  simp only [glmCS.matrixMultiply, hfr, List.foldl_cons, List.foldl_nil]
  rw [Fin.sum_univ_four]
  ring

/-- C1: for every 4x4 matrix `m` and every combination of the three
boolean axis flags, `rotate` returns `GLMCS_not_rotate` when zero flags
are set, `GLMCS_false` when two or three flags are set, and `GLMCS_ok`
when exactly one flag is set; and whenever the returned status is not
`GLMCS_ok` the matrix is returned unchanged. -/
theorem glmCS.rotate_axis_flag_status (m : glmCS.Matrix) (x y z : Bool) (angle : ℝ) :
    (glmCS.rotate angle m x y z).1 =
      (if glmCS.bool2int x + glmCS.bool2int y + glmCS.bool2int z = 0 then glmCS.GLMCS_not_rotate
       else if glmCS.bool2int x + glmCS.bool2int y + glmCS.bool2int z = 1 then glmCS.GLMCS_ok
       else glmCS.GLMCS_false) ∧
    ((glmCS.rotate angle m x y z).1 = glmCS.GLMCS_ok ∨ (glmCS.rotate angle m x y z).2 = m) := by
  cases x <;> cases y <;> cases z <;>
    simp [glmCS.rotate, glmCS.bool2int, glmCS.GLMCS_ok, glmCS.GLMCS_not_rotate,
      glmCS.GLMCS_false]

/-- C3: the plain `matrix_utils.h` variant of `translateMatrix` adds
`(x, y, z)` into `mat4[0][3]`, `mat4[1][3]`, `mat4[2][3]` while the
`csmatrix_utils.hpp` variant adds them into `mat4[3][0]`, `mat4[3][1]`,
`mat4[3][2]`; hence for some matrix and some nonzero offset the two
variants produce unequal result matrices. -/
theorem translate_variants_differ (m : glmCS.Matrix) (x y z : ℝ) :
    (glmCSplain.translateMatrix m x y z).mat4 0 3 = m.mat4 0 3 + x ∧
    (glmCSplain.translateMatrix m x y z).mat4 1 3 = m.mat4 1 3 + y ∧
    (glmCSplain.translateMatrix m x y z).mat4 2 3 = m.mat4 2 3 + z ∧
    (glmCS.translateMatrix m x y z).mat4 3 0 = m.mat4 3 0 + x ∧
    (glmCS.translateMatrix m x y z).mat4 3 1 = m.mat4 3 1 + y ∧
    (glmCS.translateMatrix m x y z).mat4 3 2 = m.mat4 3 2 + z ∧
    ∃ (m2 : glmCS.Matrix) (a b c : ℝ), ¬(a = 0 ∧ b = 0 ∧ c = 0) ∧
      glmCSplain.translateMatrix m2 a b c ≠ glmCS.translateMatrix m2 a b c := by
  refine ⟨?_, ?_, ?_, ?_, ?_, ?_, ?_⟩
  · simp [glmCSplain.translateMatrix, glmCS.set2]
  · simp [glmCSplain.translateMatrix, glmCS.set2]
  · simp [glmCSplain.translateMatrix, glmCS.set2]
  · simp [glmCS.translateMatrix, glmCS.set2]
  · simp [glmCS.translateMatrix, glmCS.set2]
  · simp [glmCS.translateMatrix, glmCS.set2]
  · refine ⟨glmCS.mZero, 1, 0, 0, by norm_num, fun h => ?_⟩
    have h2 := congrArg (fun M : glmCS.Matrix => M.mat4 0 3) h
    simp [glmCSplain.translateMatrix, glmCS.translateMatrix, glmCS.set2, glmCS.mZero] at h2

/-- C5: `matrixMultiply(result, a, b)` stores the standard row-major
product into `result`, entry `(i, j)` being `Σ_k a[i][k] * b[k][j]`,
and the same holds when `result` aliases `a`. -/
theorem glmCS.matrixMultiply_rowmajor_product (result a : glmCS.Matrix)
    (b : Fin 4 → Fin 4 → ℝ) (i j : Fin 4) :
    (glmCS.matrixMultiply result a b).mat4 i j = ∑ k : Fin 4, a.mat4 i k * b k j ∧
    (glmCS.matrixMultiply a a b).mat4 i j = ∑ k : Fin 4, a.mat4 i k * b k j := by
  exact ⟨glmCS.matrixMultiply_entry result a b i j, glmCS.matrixMultiply_entry a a b i j⟩

/-- C8: for every `fov`, `aspect`, `near`, `far`, the `perspective`
matrix satisfies `m[2][2] = (far + near) / (near - far)`,
`m[2][3] = -1`, `m[0][0] = f / aspect` and `m[1][1] = f` with
`f = 1 / tan(fov / 2)`. -/
theorem glmCS.perspective_entries (fov aspectRatio nearPlane farPlane : ℝ) :
    (glmCS.perspective fov aspectRatio nearPlane farPlane).mat4 2 2
        = (farPlane + nearPlane) / (nearPlane - farPlane) ∧
    (glmCS.perspective fov aspectRatio nearPlane farPlane).mat4 2 3 = -1 ∧
    (glmCS.perspective fov aspectRatio nearPlane farPlane).mat4 0 0
        = (1 / Real.tan (fov / 2)) / aspectRatio ∧
    (glmCS.perspective fov aspectRatio nearPlane farPlane).mat4 1 1
        = 1 / Real.tan (fov / 2) := by
  have h : fov * (0.5 : ℝ) = fov / 2 := by ring
  refine ⟨?_, ?_, ?_, ?_⟩ <;>
    simp [glmCS.perspective, h, Matrix.cons_val_zero, Matrix.cons_val_one,
      Matrix.head_cons, Matrix.cons_val_two, Matrix.cons_val_three]

/-- C9: a `TrueType` constructed with a font file that cannot be opened
keeps its bitmap `NULL` (no allocation happens), while `getBitmapWH`
still returns the configured width and height. -/
theorem truetype_failed_open_null_bitmap (w h : ℕ) (dir : String) :
    (TrueType.constructWH false w h dir).bitmap = none ∧
    (TrueType.constructWH false w h dir).getBitmapWH = (w, h) := by
  exact ⟨rfl, rfl⟩

/-- C10: rendering the same input twice in succession on one instance
leaves the same bitmap contents as rendering it once, because
`ttf2picture` zeroes the whole bitmap before writing any glyph. -/
theorem ttf2picture_render_idempotent (E : FontEngine) (w h : ℕ) (input : String)
    (pixels : ℝ) (b b2 : Bitmap) :
    processInput E w h input pixels (processInput E w h input pixels b)
      = processInput E w h input pixels b ∧
    (ttf2picture E w h (stringToHex input) pixels b).2
      = (ttf2picture E w h (stringToHex input) pixels b2).2 := by
  exact ⟨rfl, rfl⟩

/-- The glyph loop never completes normally on a non-empty word: the
final iteration's kerning lookup has no value to read. -/
theorem renderChars_fst_none (E : FontEngine) (bw : ℕ) (asc : ℤ) (sc : ℝ)
    (word : List Char) (x : ℤ) (b : Bitmap) (hw : word ≠ []) :
    (renderChars E bw asc sc word x b).1 = none := by
  induction word generalizing x b with
  | nil => exact absurd rfl hw
  | cons c rest ih =>
    cases rest with
    | nil => rfl
    | cons c2 rest2 =>
      simp only [renderChars, List.head?_cons]
      exact ih _ _ (by simp)

/-- C6: for every non-empty input, the glyph loop of `ttf2picture`
processes the last character (index `i = word.size() - 1`) by reading
`word[i + 1]` in the kerning lookup, an index equal to the vector's
size; in the total embedding that access yields no value, so the render
pass yields no status for every non-empty input. -/
theorem ttf2picture_last_kern_out_of_bounds (E : FontEngine) (w h : ℕ)
    (word : List Char) (pixels : ℝ) (b : Bitmap) (hw : word ≠ []) :
    word.get? (word.length - 1 + 1) = none ∧
    (ttf2picture E w h word pixels b).1 = none := by
  constructor
  · rw [Nat.sub_add_cancel (List.length_pos.mpr hw)]
    exact List.get?_eq_none.mpr le_rfl
  · have hnone := renderChars_fst_none E w
      (round ((E.fontVMetrics.1 : ℝ) * E.scaleForPixelHeight pixels))
      (E.scaleForPixelHeight pixels) word 0 (resetBitmap w h b) hw
    simp only [ttf2picture]
    rcases hres : renderChars E w
        (round ((E.fontVMetrics.1 : ℝ) * E.scaleForPixelHeight pixels))
        (E.scaleForPixelHeight pixels) word 0 (resetBitmap w h b) with ⟨o, b2⟩
    rw [hres] at hnone
    cases o with
    | none => simp
    | some xx => exact absurd hnone (by simp)

/-- Multiplying the freshly initialized identity by any 4x4 array gives
back that array. -/
theorem glmCS.identity_matrixMultiply (m : glmCS.Matrix) (R : Fin 4 → Fin 4 → ℝ) :
    (glmCS.matrixMultiply (glmCS.initIdentityMatrix4x4 m) (glmCS.initIdentityMatrix4x4 m) R).mat4
      = R := by
  funext i j
  rw [glmCS.matrixMultiply_entry]
  simp [glmCS.initIdentityMatrix4x4, ite_mul]

/-- C2: for every angle and each single axis flag, `rotate` on the
identity matrix yields the closed-form single-axis rotation matrix of
the source (angle converted from degrees to radians, row-vector
convention); in particular for 90 degrees about z, applying the
resulting matrix to the basis row vector `(1, 0, 0, 0)` gives
`(0, 1, 0, 0)` exactly. -/
theorem glmCS.rotate_identity_closed_form (angle : ℝ) (m : glmCS.Matrix) :
    ((glmCS.rotate angle (glmCS.initIdentityMatrix4x4 m) true false false).2.mat4 =
      ![![1, 0, 0, 0],
        ![0, Real.cos (angle * Real.pi / 180), Real.sin (angle * Real.pi / 180), 0],
        ![0, -Real.sin (angle * Real.pi / 180), Real.cos (angle * Real.pi / 180), 0],
        ![0, 0, 0, 1]]) ∧
    ((glmCS.rotate angle (glmCS.initIdentityMatrix4x4 m) false true false).2.mat4 =
      ![![Real.cos (angle * Real.pi / 180), 0, -Real.sin (angle * Real.pi / 180), 0],
        ![0, 1, 0, 0],
        ![Real.sin (angle * Real.pi / 180), 0, Real.cos (angle * Real.pi / 180), 0],
        ![0, 0, 0, 1]]) ∧
    ((glmCS.rotate angle (glmCS.initIdentityMatrix4x4 m) false false true).2.mat4 =
      ![![Real.cos (angle * Real.pi / 180), Real.sin (angle * Real.pi / 180), 0, 0],
        ![-Real.sin (angle * Real.pi / 180), Real.cos (angle * Real.pi / 180), 0, 0],
        ![0, 0, 1, 0],
        ![0, 0, 0, 1]]) ∧
    glmCS.vecMulMat ![1, 0, 0, 0]
        ((glmCS.rotate 90 (glmCS.initIdentityMatrix4x4 m) false false true).2.mat4)
      = ![0, 1, 0, 0] := by
  have hrad : (90 : ℝ) * Real.pi / 180 = Real.pi / 2 := by ring
  refine ⟨?_, ?_, ?_, ?_⟩
  · simp [glmCS.rotate, glmCS.bool2int, glmCS.identity_matrixMultiply,
      glmCS.rotationMatrixX]
  · simp [glmCS.rotate, glmCS.bool2int, glmCS.identity_matrixMultiply,
      glmCS.rotationMatrixY]
  · simp [glmCS.rotate, glmCS.bool2int, glmCS.identity_matrixMultiply,
      glmCS.rotationMatrixZ]
  · simp only [glmCS.rotate, glmCS.bool2int, if_true, if_false]
    norm_num [glmCS.identity_matrixMultiply, glmCS.rotationMatrixZ, hrad]
    funext j
    fin_cases j <;>
      simp [glmCS.vecMulMat, Fin.sum_univ_four, Matrix.cons_val_zero,
        Matrix.cons_val_one, Matrix.head_cons, Matrix.cons_val_two,
        Matrix.cons_val_three, Real.cos_pi_div_two, Real.sin_pi_div_two]

/-- `normalize` on the zero vector signals the zero division. -/
theorem glmCS.normalize_zero_vec :
    glmCS.normalize (glmCS.vec3 0 0 0) = (glmCS.GLMCS_false, glmCS.vec3 0 0 0) := by
  norm_num [glmCS.normalize, glmCS.vec3]

/-- C4 (divergence of the code from the claim): at the degenerate input
`eye = target = (0, 0, 0)`, `up = (0, 1, 0)`, the vector to be
normalized has zero length and `normalize` produces the zero-division
failure status `GLMCS_false`; but `lookAt` discards that status and
returns a plain matrix (computed below), so no zero-division failure
signal reaches the caller of `lookAt`. -/
theorem glmCS.lookAt_zero_division_signal_dropped :
    (glmCS.normalize (glmCS.subtract (glmCS.vec3 0 0 0) (glmCS.vec3 0 0 0))).1
        = glmCS.GLMCS_false ∧
    glmCS.lookAt (glmCS.vec3 0 0 0) (glmCS.vec3 0 0 0) (glmCS.vec3 0 1 0) =
      { mat3 := fun _ _ => 0,
        mat4 := ![![0, 0, 0, 0], ![0, 0, 0, 0], ![0, 0, 0, 0], ![0, 0, 0, 1]] } := by
  have hsub : glmCS.subtract (glmCS.vec3 0 0 0) (glmCS.vec3 0 0 0) = glmCS.vec3 0 0 0 := by
    simp [glmCS.subtract, glmCS.vec3]
  have hcz : ∀ v : glmCS.Vector3, glmCS.cross (glmCS.vec3 0 0 0) v = glmCS.vec3 0 0 0 := by
    intro v
    simp [glmCS.cross, glmCS.vec3]
  constructor
  · rw [hsub, glmCS.normalize_zero_vec]
  · simp only [glmCS.lookAt, hsub, glmCS.normalize_zero_vec, hcz]
    refine congrArg (glmCS.Matrix.mk _) ?_
    funext i j
    fin_cases i <;> fin_cases j <;>
      simp [glmCS.dot, glmCS.vec3, Matrix.cons_val_zero, Matrix.cons_val_one,
        Matrix.head_cons, Matrix.cons_val_two, Matrix.cons_val_three]

/-- C7: `lookAt(eye = (0,0,3), target = (0,0,0), up = (0,1,0))` has
third row `(0, 0, 1)` in its first three entries, and its translation
row encodes `-dot(axis, eye)` per camera axis, so the z-translation
entry equals `-3`. -/
theorem glmCS.lookAt_reference_values :
    ((glmCS.lookAt (glmCS.vec3 0 0 3) (glmCS.vec3 0 0 0) (glmCS.vec3 0 1 0)).mat4 2 0 = 0) ∧
    ((glmCS.lookAt (glmCS.vec3 0 0 3) (glmCS.vec3 0 0 0) (glmCS.vec3 0 1 0)).mat4 2 1 = 0) ∧
    ((glmCS.lookAt (glmCS.vec3 0 0 3) (glmCS.vec3 0 0 0) (glmCS.vec3 0 1 0)).mat4 2 2 = 1) ∧
    ((glmCS.lookAt (glmCS.vec3 0 0 3) (glmCS.vec3 0 0 0) (glmCS.vec3 0 1 0)).mat4 3 0 = 0) ∧
    ((glmCS.lookAt (glmCS.vec3 0 0 3) (glmCS.vec3 0 0 0) (glmCS.vec3 0 1 0)).mat4 3 1 = 0) ∧
    ((glmCS.lookAt (glmCS.vec3 0 0 3) (glmCS.vec3 0 0 0) (glmCS.vec3 0 1 0)).mat4 3 2 = -3) := by
  have h9 : Real.sqrt 9 = 3 := by
    rw [show (9 : ℝ) = 3 ^ 2 by norm_num, Real.sqrt_sq (by norm_num : (0:ℝ) ≤ 3)]
  have hsub : glmCS.subtract (glmCS.vec3 0 0 0) (glmCS.vec3 0 0 3) = glmCS.vec3 0 0 (-3) := by
    simp [glmCS.subtract, glmCS.vec3]
  have hn3 : glmCS.normalize (glmCS.vec3 0 0 (-3)) = (glmCS.GLMCS_ok, glmCS.vec3 0 0 (-1)) := by
    simp only [glmCS.normalize, glmCS.vec3]
    rw [show (0:ℝ) * 0 + 0 * 0 + -3 * -3 = 9 by norm_num, h9]
    rw [if_neg (by norm_num : ¬(3:ℝ) = 0)]
    norm_num
  have hcr1 : glmCS.cross (glmCS.vec3 0 0 (-1)) (glmCS.vec3 0 1 0) = glmCS.vec3 1 0 0 := by
    simp [glmCS.cross, glmCS.vec3]
  have hn1 : glmCS.normalize (glmCS.vec3 1 0 0) = (glmCS.GLMCS_ok, glmCS.vec3 1 0 0) := by
    simp only [glmCS.normalize, glmCS.vec3]
    rw [show (1:ℝ) * 1 + 0 * 0 + 0 * 0 = 1 by norm_num, Real.sqrt_one]
    rw [if_neg (by norm_num : ¬(1:ℝ) = 0)]
    norm_num
  have hcr2 : glmCS.cross (glmCS.vec3 1 0 0) (glmCS.vec3 0 0 (-1)) = glmCS.vec3 0 1 0 := by
    simp [glmCS.cross, glmCS.vec3]
  have hn2 : glmCS.normalize (glmCS.vec3 0 1 0) = (glmCS.GLMCS_ok, glmCS.vec3 0 1 0) := by
    simp only [glmCS.normalize, glmCS.vec3]
    rw [show (0:ℝ) * 0 + 1 * 1 + 0 * 0 = 1 by norm_num, Real.sqrt_one]
    rw [if_neg (by norm_num : ¬(1:ℝ) = 0)]
    norm_num
  have hn3s : (glmCS.normalize (glmCS.vec3 0 0 (-3))).2 = glmCS.vec3 0 0 (-1) := by
    rw [hn3]
  have hn1s : (glmCS.normalize (glmCS.vec3 1 0 0)).2 = glmCS.vec3 1 0 0 := by
    rw [hn1]
  have hn2s : (glmCS.normalize (glmCS.vec3 0 1 0)).2 = glmCS.vec3 0 1 0 := by
    rw [hn2]
  refine ⟨?_, ?_, ?_, ?_, ?_, ?_⟩
  all_goals
    simp only [glmCS.lookAt, hsub, hn3s, hcr1, hn1s, hcr2, hn2s]
    simp [glmCS.vec3, glmCS.dot, Matrix.cons_val_zero, Matrix.cons_val_one,
      Matrix.head_cons, Matrix.cons_val_two, Matrix.cons_val_three,
      Matrix.vecHead, Matrix.vecTail]

/-- Concrete run of the out-of-bounds fact on the one-character word
`"a"` with the trivial font interface. -/
theorem ttf2picture_last_kern_out_of_bounds_witness :
    (['a'].get? (['a'].length - 1 + 1) = none) ∧
    (ttf2picture fontEngine0 4 4 ['a'] 32 (List.replicate 16 0)).1 = none :=
  ttf2picture_last_kern_out_of_bounds fontEngine0 4 4 ['a'] 32 (List.replicate 16 0)
    (by simp)
